import Mathlib

/-!
Verification development for the Bayesian protein inference core of this
repository (`BayesianProteinInferenceAlgorithm`).  The definitions below are a
shallow embedding of the C++ source: the connected-component view of the
identification graph, the factor-construction loop, the posterior write-back
loop of the two inference functors, the indistinguishable-group annotator,
and the driver `inferPosteriorProbabilities` with its grid-search tail.
Scores are embedded as rationals; external collaborators (the belief
propagation engine, the grid search) are passed in as oracles or modelled
from the spec where noted.
-/

namespace BayesianProteinInference

/-- A vertex of the identification graph as seen through the `boost::variant`
payload: `which` is the variant tag (0 = ProteinHit, 1 = protein group,
2 = peptide group, 6 = PeptideHit/PSM); `score` and `accession` are the fields
of the pointed-to hit that the algorithm reads or writes; `evidences` is the
size of `getPeptideEvidences()` for a PSM payload. -/
structure Vertex where
  which : ℕ
  score : ℚ
  accession : String
  evidences : ℕ
deriving DecidableEq

/-- A connected-component view of the identification graph
(`IDBoostGraph::Graph&` as handed to the functors): the vertex ids in
iteration order of `boost::vertices`, the payload map `fg[u]`, and the
adjacency lists in iteration order of `boost::adjacent_vertices`. -/
structure Graph where
  vertices : List ℕ
  payload : ℕ → Vertex
  adj : ℕ → List ℕ

/-- The three message-update schedules named by
`loopy_belief_propagation:scheduling_type`. -/
inductive SchedulerType where
  | priority
  | fifo
  | randomSpanningTree
deriving DecidableEq

/-- Descriptors of the factors created through `MessagePasserFactory` in the
factor-construction loop.  The parent of a sum-evidence factor is the
Option-valued embedding of the `in[0]` access (`none` when `in` is empty,
which is undefined behaviour in the C++). -/
inductive Factor where
  | sumEvidenceFactor (n : ℕ) (parent : Option ℕ) (child : ℕ)
  | peptideEvidenceFactor (v : ℕ) (score : ℚ)
  | peptideProbabilisticAdderFactor (parents : List ℕ) (out : ℕ)
  | proteinFactor (v : ℕ)
deriving DecidableEq

/-- A posterior factor as returned by
`BeliefPropagationInferenceEngine::estimate_posteriors`: its ordered variable
list and the one-dimensional PMF (`first_support()[0]`, `last_support()[0]`,
`table()`). -/
structure PosteriorFactor where
  orderedVariables : List ℕ
  firstSupport : ℤ
  lastSupport : ℤ
  table : List ℚ
deriving DecidableEq

/-- The algorithm's configuration, one field per parameter registered in the
`BayesianProteinInferenceAlgorithm` constructor. -/
structure AlgoParams where
  annotateGroupsOnly : Bool
  topPSMs : ℕ
  protPrior : ℚ
  pepEmission : ℚ
  pepSpuriousEmission : ℚ
  schedulingType : String
  convergenceThreshold : ℚ
  dampeningLambda : ℚ
  maxNrIterations : ℕ

/-- The default parameter values registered in the constructor. -/
def defaultParams : AlgoParams where
  annotateGroupsOnly := false
  topPSMs := 1
  protPrior := 9/10
  pepEmission := 1/10
  pepSpuriousEmission := 1/1000
  schedulingType := "priority"
  convergenceThreshold := 1/100000
  dampeningLambda := 1/1000
  maxNrIterations := 2^32

/-- The subset `in` of `u`'s neighbors whose variant tag is strictly smaller
than `u`'s, collected in adjacency order by the inner neighbor loop of
`GraphInferenceFunctor::operator()`. -/
def smallerNeighbors (fg : Graph) (u : ℕ) : List ℕ :=
  (fg.adj u).filter (fun v => decide ((fg.payload v).which < (fg.payload u).which))

/-- One iteration of the factor-construction loop of
`GraphInferenceFunctor::operator()`: dispatch on `fg[*ui].which()` and append
the created factors (first component) and the recorded posterior-variable
requests (second component). -/
def buildStep (fg : Graph) (acc : List Factor × List (List ℕ)) (u : ℕ) :
    List Factor × List (List ℕ) :=
  if (fg.payload u).which = 6 then
    (acc.1 ++ [Factor.sumEvidenceFactor (fg.payload u).evidences ((smallerNeighbors fg u)[0]?) u,
               Factor.peptideEvidenceFactor u (fg.payload u).score], acc.2)
  else if (fg.payload u).which = 2 then
    (acc.1 ++ [Factor.peptideProbabilisticAdderFactor (smallerNeighbors fg u) u], acc.2)
  else if (fg.payload u).which = 1 then
    (acc.1 ++ [Factor.peptideProbabilisticAdderFactor (smallerNeighbors fg u) u], acc.2)
  else if (fg.payload u).which = 0 then
    (acc.1 ++ [Factor.proteinFactor u], acc.2 ++ [[u]])
  else acc

/-- The factor list and posterior-variable list accumulated by the vertex loop
of `GraphInferenceFunctor::operator()` over the whole component. -/
def builtFactors (fg : Graph) : List Factor × List (List ℕ) :=
  fg.vertices.foldl (buildStep fg) ([], [])

/-- Modelled from the spec: `IDBoostGraph::SetPosteriorVisitor` is not among
the sources; per the spec's posterior-write-back policy the scalar "is written
onto the corresponding identification-graph vertex's score field (dispatched
by vertex kind; Proteins receive it directly; other kinds ignore)". -/
def setPosterior (fg : Graph) (v : ℕ) (p : ℚ) : Graph :=
  if (fg.payload v).which = 0 then
    { fg with payload := fun w => if w = v then { fg.payload w with score := p } else fg.payload w }
  else fg

/-- One iteration of the posterior write-back loop of
`GraphInferenceFunctor::operator()`: extract the node id, compute the
presence-probability scalar from the PMF, and apply the bound visitor. -/
def writeStep (acc : Graph) (pf : PosteriorFactor) : Graph :=
  setPosterior acc (pf.orderedVariables.getD 0 0)
    (if 1 ≥ pf.firstSupport ∧ 1 ≤ pf.lastSupport
     then pf.table.getD (1 - pf.firstSupport).toNat 0 else 0)

/-- The result of running an inference functor on one connected component:
the (possibly updated) component graph, the factors inserted into the
`BetheInferenceGraphBuilder`, the recorded posterior variables, the arguments
passed to the `MessagePasserFactory` constructor, and the scheduler
constructed (kind, dampening lambda, convergence threshold, max iterations);
the last two are `none` when the component was skipped. -/
structure InferenceResult where
  graph : Graph
  factors : List Factor
  posteriorVars : List (List ℕ)
  mpf : Option (ℚ × ℚ × ℚ × ℚ)
  scheduler : Option (SchedulerType × ℚ × ℚ × ℕ)

/-- The body of `BayesianProteinInferenceAlgorithm::GraphInferenceFunctor::operator()`,
with `estimatePosteriors` abstracting the external
`BeliefPropagationInferenceEngine::estimate_posteriors` call. -/
def graphInferenceFunctor (param : AlgoParams)
    (estimatePosteriors : List Factor → List (List ℕ) → List PosteriorFactor)
    (fg : Graph) : InferenceResult :=
  if 2 ≤ fg.vertices.length then
    { graph := (estimatePosteriors (builtFactors fg).1 (builtFactors fg).2).foldl writeStep fg
      factors := (builtFactors fg).1
      posteriorVars := (builtFactors fg).2
      mpf := some (param.pepEmission, param.pepSpuriousEmission, param.protPrior, 1)
      scheduler := some (SchedulerType.priority, param.dampeningLambda,
                         param.convergenceThreshold, param.maxNrIterations) }
  else
    { graph := fg, factors := [], posteriorVars := [], mpf := none, scheduler := none }

/-- Twin of `smallerNeighbors`, transcribed from the inner neighbor loop of
`ExtendedGraphInferenceFunctor::operator()`. -/
def smallerNeighborsExt (fg : Graph) (u : ℕ) : List ℕ :=
  (fg.adj u).filter (fun v => decide ((fg.payload v).which < (fg.payload u).which))

/-- One iteration of the factor-construction loop of
`ExtendedGraphInferenceFunctor::operator()`. -/
def buildStepExt (fg : Graph) (acc : List Factor × List (List ℕ)) (u : ℕ) :
    List Factor × List (List ℕ) :=
  if (fg.payload u).which = 6 then
    (acc.1 ++ [Factor.sumEvidenceFactor (fg.payload u).evidences ((smallerNeighborsExt fg u)[0]?) u,
               Factor.peptideEvidenceFactor u (fg.payload u).score], acc.2)
  else if (fg.payload u).which = 2 then
    (acc.1 ++ [Factor.peptideProbabilisticAdderFactor (smallerNeighborsExt fg u) u], acc.2)
  else if (fg.payload u).which = 1 then
    (acc.1 ++ [Factor.peptideProbabilisticAdderFactor (smallerNeighborsExt fg u) u], acc.2)
  else if (fg.payload u).which = 0 then
    (acc.1 ++ [Factor.proteinFactor u], acc.2 ++ [[u]])
  else acc

/-- The factor list and posterior-variable list accumulated by the vertex loop
of `ExtendedGraphInferenceFunctor::operator()`. -/
def builtFactorsExt (fg : Graph) : List Factor × List (List ℕ) :=
  fg.vertices.foldl (buildStepExt fg) ([], [])

/-- One iteration of the posterior write-back loop of
`ExtendedGraphInferenceFunctor::operator()`. -/
def writeStepExt (acc : Graph) (pf : PosteriorFactor) : Graph :=
  setPosterior acc (pf.orderedVariables.getD 0 0)
    (if 1 ≥ pf.firstSupport ∧ 1 ≤ pf.lastSupport
     then pf.table.getD (1 - pf.firstSupport).toNat 0 else 0)

/-- The body of `BayesianProteinInferenceAlgorithm::ExtendedGraphInferenceFunctor::operator()`,
transcribed from its own source block. -/
def extendedGraphInferenceFunctor (param : AlgoParams)
    (estimatePosteriors : List Factor → List (List ℕ) → List PosteriorFactor)
    (fg : Graph) : InferenceResult :=
  if 2 ≤ fg.vertices.length then
    { graph := (estimatePosteriors (builtFactorsExt fg).1 (builtFactorsExt fg).2).foldl writeStepExt fg
      factors := (builtFactorsExt fg).1
      posteriorVars := (builtFactorsExt fg).2
      mpf := some (param.pepEmission, param.pepSpuriousEmission, param.protPrior, 1)
      scheduler := some (SchedulerType.priority, param.dampeningLambda,
                         param.convergenceThreshold, param.maxNrIterations) }
  else
    { graph := fg, factors := [], posteriorVars := [], mpf := none, scheduler := none }

/-- A protein-group record (`ProteinIdentification::ProteinGroup`) as filled
in by the annotator. -/
structure ProteinGroupRecord where
  probability : ℚ
  accessions : List String
deriving DecidableEq

/-- The record built for one protein-group vertex by
`AnnotateIndistGroupsFunctor::operator()`: the accessions of all adjacent
Protein vertices in adjacency order, and the probability taken from the score
of the last such protein (`none` embeds the null-pointer dereference that the
C++ performs when there is no Protein neighbor). -/
def annotateStep (fg : Graph) (u : ℕ) : Option ProteinGroupRecord :=
  match ((fg.adj u).filter (fun v => decide ((fg.payload v).which = 0))).getLast? with
  | none => none
  | some p =>
      some { probability := (fg.payload p).score
             accessions := ((fg.adj u).filter (fun v => decide ((fg.payload v).which = 0))).map
               (fun v => (fg.payload v).accession) }

/-- The body of `BayesianProteinInferenceAlgorithm::AnnotateIndistGroupsFunctor::operator()`:
on a component with at least two vertices, visit every vertex and build a
group record for each protein-group vertex (tag 1); smaller components are
skipped. -/
def annotateIndistGroupsFunctor (fg : Graph) : List (Option ProteinGroupRecord) :=
  if 2 ≤ fg.vertices.length then
    fg.vertices.foldl
      (fun acc u => if (fg.payload u).which = 1 then acc ++ [annotateStep fg u] else acc) []
  else []

/-- The candidate protein priors of the grid search (`gamma_search`). -/
def gamma_search : List ℚ := [1/2]

/-- The candidate spurious-emission probabilities of the grid search
(`beta_search`). -/
def beta_search : List ℚ := [1/1000]

/-- The candidate emission probabilities of the grid search (`alpha_search`). -/
def alpha_search : List ℚ := [1/10, 3/10, 1/2, 7/10, 9/10]

/-- The model parameters set before the final inference re-run. -/
structure RerunPoint where
  protPrior : ℚ
  pepEmission : ℚ
  pepSpuriousEmission : ℚ
deriving DecidableEq

/-- The parameter values `inferPosteriorProbabilities` writes back before the
re-run, exactly as the source computes them from the grid-search result:
`bestGamma = gamma_search[bestParams[0]]`, `bestBeta = beta_search[bestParams[1]]`,
`bestAlpha = alpha_search[bestParams[2]]`, then `prot_prior := bestGamma`,
`pep_emission := bestAlpha`, `pep_spurious_emission := bestBeta`.  Indexing is
Option-valued; `none` embeds the out-of-bounds vector reads. -/
def rerunPoint (bp0 bp1 bp2 : ℕ) : Option RerunPoint :=
  match gamma_search[bp0]?, beta_search[bp1]?, alpha_search[bp2]? with
  | some bestGamma, some bestBeta, some bestAlpha =>
      some { protPrior := bestGamma, pepEmission := bestAlpha, pepSpuriousEmission := bestBeta }
  | _, _, _ => none

/-- Modelled from the spec: `GridSearch` (the grid-scan collaborator) is not
among the sources.  Per the spec the scan runs over `A×B×G` with the evaluator
invoked as `(alpha, beta, gamma)`, so the argmax index array follows the
construction order `(alpha_search, beta_search, gamma_search)`, and the re-run
point at argmax indices `(i0, i1, i2)` is `(A[i0], B[i1], G[i2])`. -/
def specRerunPoint (bp0 bp1 bp2 : ℕ) : Option RerunPoint :=
  match alpha_search[bp0]?, beta_search[bp1]?, gamma_search[bp2]? with
  | some a, some b, some g =>
      some { protPrior := g, pepEmission := a, pepSpuriousEmission := b }
  | _, _, _ => none

/-- Modelled from the spec: the scheduler named by each admissible value of
`loopy_belief_propagation:scheduling_type`. -/
def specSchedulerOf (s : String) : Option SchedulerType :=
  if s = "priority" then some SchedulerType.priority
  else if s = "fifo" then some SchedulerType.fifo
  else if s = "random_spanning_tree" then some SchedulerType.randomSpanningTree
  else none

/-- The externally observable steps of `inferPosteriorProbabilities`. -/
inductive DriverStep where
  | setScoreType
  | buildGraphWithRunInfo (topPSMs : ℕ)
  | computeConnectedComponents
  | clusterIndistProteinsAndPeptidesAndExtendGraph
  | inferenceOnCCs (pepEmission pepSpuriousEmission protPrior : ℚ)
  | annotateGroupsOnCCs
deriving DecidableEq

/-- The grid-scan part of the trace.  Modelled from the spec for the
enumeration only: `GridSearch` (not among the sources) invokes the evaluator
for each `(a,b,g) ∈ A×B×G`; each evaluation sets the three model parameters
and applies the inference functor on all connected components. -/
def gridTrace : List DriverStep :=
  alpha_search.flatMap (fun a =>
    beta_search.flatMap (fun b =>
      gamma_search.map (fun g => DriverStep.inferenceOnCCs a b g)))

/-- The step trace of
`BayesianProteinInferenceAlgorithm::inferPosteriorProbabilities` (the
executed `oldway = false` branch), given the argmax index array the grid
search reports: set the score type, build the graph with run info, compute
connected components, cluster indistinguishable groups, run the grid scan,
re-run inference at the written-back parameter point, and annotate groups.
`none` embeds the out-of-bounds candidate-vector reads of the re-run
parameter computation. -/
def inferPosteriorProbabilitiesTrace (param : AlgoParams) (bp0 bp1 bp2 : ℕ) :
    Option (List DriverStep) :=
  match rerunPoint bp0 bp1 bp2 with
  | none => none
  | some rp =>
      some ([DriverStep.setScoreType,
             DriverStep.buildGraphWithRunInfo param.topPSMs,
             DriverStep.computeConnectedComponents,
             DriverStep.clusterIndistProteinsAndPeptidesAndExtendGraph]
            ++ gridTrace
            ++ [DriverStep.inferenceOnCCs rp.pepEmission rp.pepSpuriousEmission rp.protPrior,
                DriverStep.annotateGroupsOnCCs])

/-- A protein identification run: the fields of `ProteinIdentification` that
`inferPosteriorProbabilities` touches, with the hits reduced to
(accession, score) pairs. -/
structure ProteinIdentification where
  scoreType : String
  higherScoreBetter : Bool
  hits : List (String × ℚ)
deriving DecidableEq

/-- The effect of `inferPosteriorProbabilities` on its `proteinIDs` argument:
the score type and higher-score-better flag of element 0 are set, and the
whole downstream pipeline (graph build, grid search, write-back), abstracted
by `run`, only rescores the hits of element 0; the empty-vector case is the
C++'s undefined `proteinIDs[0]` access and is mapped to the empty list. -/
def inferPosteriorProbabilities (run : List (String × ℚ) → List (String × ℚ))
    (proteinIDs : List ProteinIdentification) : List ProteinIdentification :=
  match proteinIDs with
  | [] => []
  | p0 :: rest =>
      { p0 with scoreType := "Posterior Probability"
                higherScoreBetter := true
                hits := run p0.hits } :: rest

/-! Concrete fixtures used by witnesses and counterexamples. -/

/-- A Protein payload used in witnesses. -/
def vProtW : Vertex := { which := 0, score := 0, accession := "P1", evidences := 0 }

/-- A PSM payload used in witnesses. -/
def vPsmW : Vertex := { which := 6, score := 9/10, accession := "", evidences := 2 }

/-- A two-vertex component: Protein 0 adjacent to PSM 1. -/
def gW : Graph :=
  { vertices := [0, 1]
    payload := fun n => if n = 0 then vProtW else vPsmW
    adj := fun n => if n = 0 then [1] else [0] }

/-- A one-vertex (degenerate) component. -/
def g1 : Graph := { vertices := [0], payload := fun _ => vProtW, adj := fun _ => [] }

/-- A concrete posterior factor over variable 0 with support {0, 1}. -/
def pfW : PosteriorFactor :=
  { orderedVariables := [0], firstSupport := 0, lastSupport := 1, table := [3/10, 7/10] }

/-- A concrete stand-in for the belief propagation engine, returning `pfW`. -/
def estW : List Factor → List (List ℕ) → List PosteriorFactor := fun _ _ => [pfW]

/-! Helper lemmas. -/

lemma setPosterior_payload_of_ne (fg : Graph) (v : ℕ) (p : ℚ) (w : ℕ) (h : w ≠ v) :
    (setPosterior fg v p).payload w = fg.payload w := by
  unfold setPosterior
  split
  · simp [h]
  · rfl

lemma setPosterior_which (fg : Graph) (v : ℕ) (p : ℚ) (w : ℕ) :
    ((setPosterior fg v p).payload w).which = (fg.payload w).which := by
  unfold setPosterior
  split
  · by_cases h : w = v <;> simp [h]
  · rfl

lemma setPosterior_score_self (fg : Graph) (v : ℕ) (p : ℚ)
    (h : (fg.payload v).which = 0) :
    ((setPosterior fg v p).payload v).score = p := by
  unfold setPosterior
  rw [if_pos h]
  simp

lemma foldl_writeStep_payload_of_forall_ne (pfs : List PosteriorFactor) (fg : Graph) (n : ℕ)
    (h : ∀ pf ∈ pfs, pf.orderedVariables.getD 0 0 ≠ n) :
    (pfs.foldl writeStep fg).payload n = fg.payload n := by
  induction pfs generalizing fg with
  | nil => rfl
  | cons q t ih =>
    rw [List.foldl_cons, ih (writeStep fg q) (fun pf hpf => h pf (List.mem_cons_of_mem q hpf))]
    unfold writeStep
    exact setPosterior_payload_of_ne _ _ _ _ (h q (List.mem_cons_self q t)).symm

lemma foldl_writeStep_which (pfs : List PosteriorFactor) (fg : Graph) (w : ℕ) :
    ((pfs.foldl writeStep fg).payload w).which = (fg.payload w).which := by
  induction pfs generalizing fg with
  | nil => rfl
  | cons q t ih =>
    rw [List.foldl_cons, ih]
    unfold writeStep
    exact setPosterior_which _ _ _ _

lemma buildStep_split (fg : Graph) (acc : List Factor × List (List ℕ)) (u : ℕ) :
    buildStep fg acc u =
      (acc.1 ++ (buildStep fg ([], []) u).1, acc.2 ++ (buildStep fg ([], []) u).2) := by
  unfold buildStep
  split_ifs <;> simp

lemma foldl_buildStep (fg : Graph) (l : List ℕ) (acc : List Factor × List (List ℕ)) :
    l.foldl (buildStep fg) acc =
      (acc.1 ++ l.flatMap (fun u => (buildStep fg ([], []) u).1),
       acc.2 ++ l.flatMap (fun u => (buildStep fg ([], []) u).2)) := by
  induction l generalizing acc with
  | nil => simp
  | cons u t ih =>
    rw [List.foldl_cons, ih, buildStep_split]
    simp [List.append_assoc]

lemma flatMap_singleton_filter (q : ℕ → Prop) [DecidablePred q] (l : List ℕ) :
    (l.flatMap fun u => if q u then [[u]] else []) =
      (l.filter (fun u => decide (q u))).map (fun u => [u]) := by
  induction l with
  | nil => rfl
  | cons u t ih => by_cases h : q u <;> simp [h, ih]

lemma foldl_annotate (fg : Graph) (l : List ℕ) (acc : List (Option ProteinGroupRecord)) :
    l.foldl
      (fun acc u => if (fg.payload u).which = 1 then acc ++ [annotateStep fg u] else acc) acc =
      acc ++ (l.filter (fun u => decide ((fg.payload u).which = 1))).map (annotateStep fg) := by
  induction l generalizing acc with
  | nil => simp
  | cons u t ih =>
    rw [List.foldl_cons]
    by_cases h : (fg.payload u).which = 1 <;> simp [h, ih, List.append_assoc]

/-! Claim theorems. -/

/-- Claim C1: for every posterior PMF returned by `estimate_posteriors`, the
scalar written back to the identification-graph vertex equals
`table[1 - first_support]` when the value 1 lies within the PMF's support
interval `[first_support, last_support]`, and equals 0 otherwise.  Stated at a
Protein vertex, where the write is observable on the score field; the node ids
of the returned posterior factors are assumed pairwise distinct so no later
write overwrites the inspected one. -/
theorem posterior_writeback_scalar (param : AlgoParams)
    (est : List Factor → List (List ℕ) → List PosteriorFactor) (fg : Graph)
    (pf : PosteriorFactor)
    (h2 : 2 ≤ fg.vertices.length)
    (hmem : pf ∈ est (builtFactors fg).1 (builtFactors fg).2)
    (hnodup : ((est (builtFactors fg).1 (builtFactors fg).2).map
        (fun q => q.orderedVariables.getD 0 0)).Nodup)
    (hprot : (fg.payload (pf.orderedVariables.getD 0 0)).which = 0) :
    ((graphInferenceFunctor param est fg).graph.payload
        (pf.orderedVariables.getD 0 0)).score =
      if 1 ≥ pf.firstSupport ∧ 1 ≤ pf.lastSupport
      then pf.table.getD (1 - pf.firstSupport).toNat 0 else 0 := by
  have hg : (graphInferenceFunctor param est fg).graph =
      (est (builtFactors fg).1 (builtFactors fg).2).foldl writeStep fg := by
    unfold graphInferenceFunctor
    rw [if_pos h2]
  rw [hg]
  obtain ⟨l1, l2, heq⟩ := List.append_of_mem hmem
  rw [heq] at hnodup ⊢
  have hne : ∀ q ∈ l2, q.orderedVariables.getD 0 0 ≠ pf.orderedVariables.getD 0 0 := by
    rw [List.map_append, List.map_cons] at hnodup
    have hr := hnodup.of_append_right
    rw [List.nodup_cons] at hr
    intro q hq he
    exact hr.1 (he ▸ List.mem_map_of_mem _ hq)
  rw [List.foldl_append, List.foldl_cons,
      foldl_writeStep_payload_of_forall_ne l2 _ _ hne]
  simp only [writeStep]
  exact setPosterior_score_self _ _ _ (by rw [foldl_writeStep_which]; exact hprot)

/-- Witness for C1 at a concrete two-vertex component and a concrete posterior
factor with support `{0, 1}` and table `[0.3, 0.7]`. -/
theorem posterior_writeback_scalar_witness :
    2 ≤ gW.vertices.length ∧
    pfW ∈ estW (builtFactors gW).1 (builtFactors gW).2 ∧
    ((estW (builtFactors gW).1 (builtFactors gW).2).map
        (fun q => q.orderedVariables.getD 0 0)).Nodup ∧
    (gW.payload (pfW.orderedVariables.getD 0 0)).which = 0 ∧
    ((graphInferenceFunctor defaultParams estW gW).graph.payload
        (pfW.orderedVariables.getD 0 0)).score =
      (if 1 ≥ pfW.firstSupport ∧ 1 ≤ pfW.lastSupport
       then pfW.table.getD (1 - pfW.firstSupport).toNat 0 else 0) :=
  ⟨by decide, by simp [estW], by decide, by decide,
   posterior_writeback_scalar defaultParams estW gW pfW
     (by decide) (by simp [estW]) (by decide) (by decide)⟩

/-- Claim C2: on a component with at least two vertices the builder inserts,
per vertex `u` with `in` the strictly-smaller-kind neighbors: a protein factor
for kind 0 (recording `u` as posterior variable), an adder factor for kinds 1
and 2, a sum-evidence plus a peptide-evidence factor for kind 6, and nothing
for any other kind; only Protein vertices enter `posteriorVars`. -/
theorem factor_graph_construction (param : AlgoParams)
    (est : List Factor → List (List ℕ) → List PosteriorFactor) (fg : Graph)
    (h2 : 2 ≤ fg.vertices.length) :
    (graphInferenceFunctor param est fg).factors =
      fg.vertices.flatMap (fun u =>
        if (fg.payload u).which = 0 then [Factor.proteinFactor u]
        else if (fg.payload u).which = 1 then
          [Factor.peptideProbabilisticAdderFactor (smallerNeighbors fg u) u]
        else if (fg.payload u).which = 2 then
          [Factor.peptideProbabilisticAdderFactor (smallerNeighbors fg u) u]
        else if (fg.payload u).which = 6 then
          [Factor.sumEvidenceFactor (fg.payload u).evidences ((smallerNeighbors fg u)[0]?) u,
           Factor.peptideEvidenceFactor u (fg.payload u).score]
        else []) ∧
    (graphInferenceFunctor param est fg).posteriorVars =
      (fg.vertices.filter (fun u => decide ((fg.payload u).which = 0))).map
        (fun u => [u]) := by
  have hf : (graphInferenceFunctor param est fg).factors = (builtFactors fg).1 := by
    unfold graphInferenceFunctor
    rw [if_pos h2]
  have hp : (graphInferenceFunctor param est fg).posteriorVars = (builtFactors fg).2 := by
    unfold graphInferenceFunctor
    rw [if_pos h2]
  unfold builtFactors at hf hp
  rw [foldl_buildStep] at hf hp
  simp only [List.nil_append] at hf hp
  constructor
  · rw [hf]
    apply List.flatMap_congr
    intro u _
    unfold buildStep
    split_ifs <;> simp_all
  · rw [hp]
    rw [List.flatMap_congr (g := fun u => if (fg.payload u).which = 0 then [[u]] else [])
        (fun u _ => by unfold buildStep; split_ifs <;> simp_all)]
    exact flatMap_singleton_filter _ _

/-- Witness for C2 at the concrete two-vertex Protein–PSM component. -/
theorem factor_graph_construction_witness :
    2 ≤ gW.vertices.length ∧
    ((graphInferenceFunctor defaultParams estW gW).factors =
      gW.vertices.flatMap (fun u =>
        if (gW.payload u).which = 0 then [Factor.proteinFactor u]
        else if (gW.payload u).which = 1 then
          [Factor.peptideProbabilisticAdderFactor (smallerNeighbors gW u) u]
        else if (gW.payload u).which = 2 then
          [Factor.peptideProbabilisticAdderFactor (smallerNeighbors gW u) u]
        else if (gW.payload u).which = 6 then
          [Factor.sumEvidenceFactor (gW.payload u).evidences ((smallerNeighbors gW u)[0]?) u,
           Factor.peptideEvidenceFactor u (gW.payload u).score]
        else []) ∧
     (graphInferenceFunctor defaultParams estW gW).posteriorVars =
       (gW.vertices.filter (fun u => decide ((gW.payload u).which = 0))).map
         (fun u => [u])) :=
  ⟨by decide, factor_graph_construction defaultParams estW gW (by decide)⟩

/-- Claim C3 (refuted): the re-run parameter computation reads
`gamma_search[bestParams[0]]` and `alpha_search[bestParams[2]]`, transposed
against the grid construction order `(alpha_search, beta_search, gamma_search)`.
At argmax indices `(1, 0, 0)` (argmax at alpha = 0.3) the code's read of
`gamma_search[1]` is out of bounds (`none`), while the spec-modelled re-run
point is `(alpha, beta, gamma) = (0.3, 0.001, 0.5)`. -/
theorem rerun_point_transposed :
    rerunPoint 1 0 0 = none ∧
    specRerunPoint 1 0 0 =
      some { protPrior := 1/2, pepEmission := 3/10, pepSpuriousEmission := 1/1000 } :=
  ⟨rfl, rfl⟩

/-- Claim C4 (refuted): the inference functor constructs the priority
scheduler for every value of `loopy_belief_propagation:scheduling_type`
(the parameter is never consulted), while per the spec `fifo` and
`random_spanning_tree` name the other two schedulers. -/
theorem scheduling_type_not_consulted :
    (∀ s : String,
      ((graphInferenceFunctor { defaultParams with schedulingType := s } estW gW).scheduler.map
          Prod.fst) = some SchedulerType.priority) ∧
    specSchedulerOf "fifo" = some SchedulerType.fifo ∧
    specSchedulerOf "random_spanning_tree" = some SchedulerType.randomSpanningTree :=
  ⟨fun _ => rfl, rfl, rfl⟩

/-- The default configuration with `annotate_groups_only` switched on. -/
def annotateOnlyParams : AlgoParams := { defaultParams with annotateGroupsOnly := true }

/-- Claim C5 (refuted): `inferPosteriorProbabilities` never reads
`annotate_groups_only`; with the flag set to true its step trace is unchanged
and still contains a grid-scan inference step. -/
theorem annotate_groups_only_not_honored :
    inferPosteriorProbabilitiesTrace annotateOnlyParams 0 0 0 =
      inferPosteriorProbabilitiesTrace defaultParams 0 0 0 ∧
    DriverStep.inferenceOnCCs (1/10) (1/1000) (1/2) ∈
      (inferPosteriorProbabilitiesTrace annotateOnlyParams 0 0 0).getD [] :=
  ⟨rfl, by
    simp [inferPosteriorProbabilitiesTrace, rerunPoint, gridTrace,
          alpha_search, beta_search, gamma_search, annotateOnlyParams, defaultParams]⟩

/-- A Protein payload with score 1/5 and accession "A". -/
def vProtA : Vertex := { which := 0, score := 1/5, accession := "A", evidences := 0 }

/-- A Protein payload with score 7/10 and accession "B". -/
def vProtB : Vertex := { which := 0, score := 7/10, accession := "B", evidences := 0 }

/-- A protein-group payload. -/
def vGroup : Vertex := { which := 1, score := 0, accession := "", evidences := 0 }

/-- A component in which group vertex 1 has the two protein members 0 and 2
whose scores differ. -/
def gBad : Graph :=
  { vertices := [0, 1, 2]
    payload := fun n => if n = 0 then vProtA else if n = 1 then vGroup else vProtB
    adj := fun n => if n = 1 then [0, 2] else [1] }

/-- Counterexample for C6: on `gBad` the annotator emits a group record
although the two Protein members of the group have different scores — no
score-equality assertion exists — and the record's probability is the last
member's score (7/10), not a score shared by all members. -/
theorem annotator_no_assertion_cex :
    annotateIndistGroupsFunctor gBad =
      [some { probability := 7/10, accessions := ["A", "B"] }] ∧
    (gBad.payload 1).which = 1 ∧
    0 ∈ gBad.adj 1 ∧ (gBad.payload 0).which = 0 ∧
    2 ∈ gBad.adj 1 ∧ (gBad.payload 2).which = 0 ∧
    (gBad.payload 0).score ≠ (gBad.payload 2).score :=
  ⟨rfl, rfl, by decide, rfl, by decide, rfl, by norm_num [gBad, vProtA, vProtB]⟩

/-- Claim C6 (amended): for every ProteinGroup vertex in a component with at
least two vertices, the annotator forms a record whose accession list is
exactly the accessions of all adjacent Protein vertices (in adjacency order)
and whose probability is the score of the last adjacent Protein vertex
iterated; no assertion that the member scores agree is performed. -/
theorem annotator_group_record (fg : Graph) (u : ℕ) (p : ℕ)
    (h2 : 2 ≤ fg.vertices.length) (hu : u ∈ fg.vertices)
    (hk : (fg.payload u).which = 1)
    (hp : ((fg.adj u).filter (fun v => decide ((fg.payload v).which = 0))).getLast? = some p) :
    annotateStep fg u =
      some { probability := (fg.payload p).score
             accessions := ((fg.adj u).filter (fun v => decide ((fg.payload v).which = 0))).map
               (fun v => (fg.payload v).accession) } ∧
    annotateStep fg u ∈ annotateIndistGroupsFunctor fg := by
  constructor
  · unfold annotateStep
    rw [hp]
  · unfold annotateIndistGroupsFunctor
    rw [if_pos h2, foldl_annotate, List.nil_append]
    exact List.mem_map_of_mem _ (List.mem_filter.mpr ⟨hu, by simp [hk]⟩)

/-- Witness for the amended C6 on `gBad`: group vertex 1, last protein member 2. -/
theorem annotator_group_record_witness :
    2 ≤ gBad.vertices.length ∧ 1 ∈ gBad.vertices ∧ (gBad.payload 1).which = 1 ∧
    ((gBad.adj 1).filter (fun v => decide ((gBad.payload v).which = 0))).getLast? = some 2 ∧
    (annotateStep gBad 1 =
      some { probability := (gBad.payload 2).score
             accessions := ((gBad.adj 1).filter (fun v => decide ((gBad.payload v).which = 0))).map
               (fun v => (gBad.payload v).accession) } ∧
     annotateStep gBad 1 ∈ annotateIndistGroupsFunctor gBad) :=
  ⟨by decide, by decide, rfl, by decide,
   annotator_group_record gBad 1 2 (by decide) (by decide) rfl (by decide)⟩

/-- Claim C7: `GraphInferenceFunctor` and `ExtendedGraphInferenceFunctor`
compute the same function: on the same component with the same parameters and
the same belief propagation oracle they build the same factors, construct the
same scheduler, and write back the same posteriors. -/
theorem graphInferenceFunctor_eq_extended :
    ∀ (param : AlgoParams) (est : List Factor → List (List ℕ) → List PosteriorFactor)
      (fg : Graph),
      graphInferenceFunctor param est fg = extendedGraphInferenceFunctor param est fg :=
  fun _ _ _ => rfl

/-- Claim C8: on a component with fewer than two vertices the inference
functor builds no factors, records no posterior variables, constructs neither
factory nor scheduler and leaves the graph unchanged, and the annotator emits
nothing. -/
theorem degenerate_cc_skipped (param : AlgoParams)
    (est : List Factor → List (List ℕ) → List PosteriorFactor) (fg : Graph)
    (h : fg.vertices.length < 2) :
    graphInferenceFunctor param est fg =
      { graph := fg, factors := [], posteriorVars := [], mpf := none, scheduler := none } ∧
    annotateIndistGroupsFunctor fg = [] := by
  constructor
  · unfold graphInferenceFunctor
    rw [if_neg (by omega)]
  · unfold annotateIndistGroupsFunctor
    rw [if_neg (by omega)]

/-- Witness for C8 on a one-vertex component. -/
theorem degenerate_cc_skipped_witness :
    g1.vertices.length < 2 ∧
    (graphInferenceFunctor defaultParams estW g1 =
      { graph := g1, factors := [], posteriorVars := [], mpf := none, scheduler := none } ∧
     annotateIndistGroupsFunctor g1 = []) :=
  ⟨by decide, degenerate_cc_skipped defaultParams estW g1 (by decide)⟩

/-- Claim C9: for a non-empty `proteinIDs`, `inferPosteriorProbabilities` sets
the score type of element 0 to "Posterior Probability" and its
higher-score-better flag to true, only rescores element 0's hits through the
downstream pipeline, and leaves every element at index 1 or greater
unchanged. -/
theorem inferPosteriorProbabilities_frame
    (run : List (String × ℚ) → List (String × ℚ))
    (proteinIDs : List ProteinIdentification)
    (p0 : ProteinIdentification) (rest : List ProteinIdentification)
    (h : proteinIDs = p0 :: rest) :
    inferPosteriorProbabilities run proteinIDs =
      { p0 with scoreType := "Posterior Probability", higherScoreBetter := true,
                hits := run p0.hits } :: rest ∧
    (∀ i, 1 ≤ i →
      (inferPosteriorProbabilities run proteinIDs)[i]? = proteinIDs[i]?) := by
  subst h
  refine ⟨rfl, ?_⟩
  intro i hi
  match i, hi with
  | (n + 1), _ => simp [inferPosteriorProbabilities]

/-- A protein identification run used in the C9 witness. -/
def pidA : ProteinIdentification :=
  { scoreType := "q-value", higherScoreBetter := false, hits := [("X", 1/2)] }

/-- A second protein identification run used in the C9 witness. -/
def pidB : ProteinIdentification :=
  { scoreType := "other", higherScoreBetter := false, hits := [] }

/-- The identity hit-rescoring oracle used in the C9 witness. -/
def runW : List (String × ℚ) → List (String × ℚ) := fun h => h

/-- Witness for C9 on a concrete two-element vector. -/
theorem inferPosteriorProbabilities_frame_witness :
    ([pidA, pidB] : List ProteinIdentification) = pidA :: [pidB] ∧
    (inferPosteriorProbabilities runW [pidA, pidB] =
      { pidA with scoreType := "Posterior Probability", higherScoreBetter := true,
                  hits := runW pidA.hits } :: [pidB] ∧
     (∀ i, 1 ≤ i →
       (inferPosteriorProbabilities runW [pidA, pidB])[i]? =
         ([pidA, pidB] : List ProteinIdentification)[i]?)) :=
  ⟨rfl, inferPosteriorProbabilities_frame runW [pidA, pidB] pidA [pidB] rfl⟩

/-- Claim C10: for a PSM vertex with at least one strictly-smaller-kind
neighbor, the `in[0]` access of the factor-construction loop is safe: the
Option-valued index 0 of `smallerNeighbors` is not `none`. -/
theorem psm_parent_access_safe (fg : Graph) (u : ℕ)
    (hk : (fg.payload u).which = 6)
    (h : ∃ v ∈ fg.adj u, (fg.payload v).which < (fg.payload u).which) :
    (smallerNeighbors fg u)[0]? ≠ none := by
  obtain ⟨v, hv, hlt⟩ := h
  have hmem : v ∈ smallerNeighbors fg u := List.mem_filter.mpr ⟨hv, by simp [hlt]⟩
  intro hnone
  cases hsn : smallerNeighbors fg u with
  | nil => rw [hsn] at hmem; exact (List.not_mem_nil v) hmem
  | cons a t => rw [hsn] at hnone; simp at hnone

/-- Witness for C10 on the two-vertex Protein–PSM component at PSM vertex 1. -/
theorem psm_parent_access_safe_witness :
    (gW.payload 1).which = 6 ∧
    (∃ v ∈ gW.adj 1, (gW.payload v).which < (gW.payload 1).which) ∧
    (smallerNeighbors gW 1)[0]? ≠ none :=
  ⟨by decide, ⟨0, by decide, by decide⟩,
   psm_parent_access_safe gW 1 (by decide) ⟨0, by decide, by decide⟩⟩

end BayesianProteinInference
